import Mathlib

/-
Verification of the prefetching frame-cache subsystem in
`sam2/utils/misc.py`: the bounded insertion-order eviction cache
(`LRACache`), the worker task queue (`TaskQueue`), and the facade
(`AsyncVideoFrameLoader`) with its getitem / prefetch-window logic.

The Python classes are shallowly embedded as pure Lean functions on an
explicit state.  A Python `dict`-backed `OrderedDict` is modelled as an
association list in insertion order (oldest entry first); exceptions are
modelled with `Except`.
-/

set_option autoImplicit false

namespace Sam2

variable {α : Type}

/-- Exceptions that can flow through the modelled code: a failure of the
image-loading collaborator (`_load_img_as_tensor` raising, tagged with the
frame index), a Python `KeyError` from a dict lookup, and the
`RuntimeError("Failure in frame loading thread") from self.exception`
raised by `__getitem__`, wrapping its cause. -/
inductive PyErr where
  | loadError : Nat → PyErr
  | keyError : PyErr
  | runtimeError : PyErr → PyErr
  deriving DecidableEq, Repr

/-! ### OrderedDict primitives

`OrderedDict` (the base class of `LRACache`) keeps entries in insertion
order; assigning to an existing key updates the value in place without
moving the key, assigning a fresh key appends it at the end, and
`next(iter(d))` is the oldest (first-inserted) key. -/

/-- Python `key in d` on an insertion-ordered dict. -/
def odMem (c : List (Nat × α)) (k : Nat) : Bool :=
  match c with
  | [] => false
  | (k', _) :: rest => k' == k || odMem rest k

/-- Python `d[key]` on an insertion-ordered dict: the value of the first
(and in a real dict, only) entry with the given key, `none` meaning a
`KeyError`. -/
def odGet (c : List (Nat × α)) (k : Nat) : Option α :=
  match c with
  | [] => none
  | (k', v) :: rest => if k' == k then some v else odGet rest k

/-- Python `d[key] = value` on an insertion-ordered dict: update in place
when the key is present, append at the end otherwise. -/
def odSet (c : List (Nat × α)) (k : Nat) (v : α) : List (Nat × α) :=
  match c with
  | [] => [(k, v)]
  | (k', v') :: rest => if k' == k then (k, v) :: rest else (k', v') :: odSet rest k v

/-- Python `del d[key]` on an insertion-ordered dict: remove the (unique)
entry with the given key. -/
def odDel (c : List (Nat × α)) (k : Nat) : List (Nat × α) :=
  match c with
  | [] => []
  | (k', v') :: rest => if k' == k then rest else (k', v') :: odDel rest k

namespace LRACache

/-- Embedding of `LRACache.__setitem__` (misc.py lines 150-154): insert
via `OrderedDict.__setitem__`, then, if the size now exceeds `maxsize`,
delete `next(iter(self))`, the oldest-inserted key (the head of the
insertion-ordered list). -/
def setitem (maxsize : Nat) (c : List (Nat × α)) (k : Nat) (v : α) : List (Nat × α) :=
  if maxsize < (odSet c k v).length then (odSet c k v).drop 1 else odSet c k v

/-- The cache contents after a sequence of `__setitem__` calls starting
from the empty cache. -/
def applyInserts (maxsize : Nat) (ops : List (Nat × α)) : List (Nat × α) :=
  ops.foldl (fun c kv => setitem maxsize c kv.1 kv.2) []

end LRACache

/-! ### Lemmas about the dict and cache primitives -/

theorem odSet_length (c : List (Nat × α)) (k : Nat) (v : α) :
    (odSet c k v).length = if odMem c k then c.length else c.length + 1 := by
  induction c with
  | nil => simp [odSet, odMem]
  | cons hd tl ih =>
    obtain ⟨k', v'⟩ := hd
    by_cases h : k' = k
    · simp [odSet, odMem, h]
    · have hb : (k' == k) = false := beq_false_of_ne h
      by_cases hm : odMem tl k <;> simp [odSet, odMem, hb, ih, hm]

theorem odSet_length_le (c : List (Nat × α)) (k : Nat) (v : α) :
    (odSet c k v).length ≤ c.length + 1 := by
  rw [odSet_length]
  split <;> omega

theorem setitem_length_le (maxsize : Nat) (c : List (Nat × α)) (k : Nat) (v : α)
    (h : c.length ≤ maxsize) : (LRACache.setitem maxsize c k v).length ≤ maxsize := by
  unfold LRACache.setitem
  have hle := odSet_length_le c k v
  split
  · simp only [List.length_drop]
    omega
  · omega

theorem applyInserts_length_le (maxsize : Nat) (ops : List (Nat × α)) :
    (LRACache.applyInserts maxsize ops).length ≤ maxsize := by
  suffices h : ∀ c : List (Nat × α), c.length ≤ maxsize →
      (ops.foldl (fun c kv => LRACache.setitem maxsize c kv.1 kv.2) c).length ≤ maxsize by
    exact h [] (by simp)
  induction ops with
  | nil => intro c hc; simpa using hc
  | cons hd tl ih =>
    intro c hc
    exact ih _ (setitem_length_le maxsize c hd.1 hd.2 hc)

theorem odSet_of_not_mem (c : List (Nat × α)) (k : Nat) (v : α)
    (h : odMem c k = false) : odSet c k v = c ++ [(k, v)] := by
  induction c with
  | nil => simp [odSet]
  | cons hd tl ih =>
    obtain ⟨k', v'⟩ := hd
    simp only [odMem, Bool.or_eq_false_iff] at h
    simp [odSet, h.1, ih h.2]

/-- Inserting a fresh key into a full nonempty cache evicts exactly the
oldest-inserted entry (the head) and appends the new entry at the end. -/
theorem setitem_evicts_oldest (m : Nat) (c : List (Nat × α)) (k : Nat) (v : α)
    (hne : 0 < c.length) (hfull : c.length = m) (hnew : odMem c k = false) :
    LRACache.setitem m c k v = c.drop 1 ++ [(k, v)] := by
  unfold LRACache.setitem
  rw [odSet_of_not_mem c k v hnew]
  have hlen : (c ++ [(k, v)]).length = m + 1 := by simp [hfull]
  rw [if_pos (by omega)]
  cases c with
  | nil => simp at hne
  | cons hd tl => simp

/-! ### AsyncVideoFrameLoader state

The fields of the Python object that the claims are about.  `images` is
the `LRACache` contents in insertion order; `exception` is the sticky
error slot written by `_load_frames`; `last_accessed_frame` is the
prefetch cursor.  `calls` is a ghost log of the indices at which the
image-loading collaborator has been invoked (the spec's "loader
call-counter collaborator"); it does not influence any control flow.
The loading collaborator itself (`_load_img_as_tensor` together with the
normalization in `_load_frame`) is a parameter `loadImg : Nat → Except
PyErr α`, since decoding is outside the modelled core. -/
structure Store (α : Type) where
  cache_size : Nat
  images : List (Nat × α)
  exception : Option PyErr
  last_accessed_frame : Nat
  calls : List Nat
  deriving Repr, DecidableEq

namespace Store

/-- Embedding of `AsyncVideoFrameLoader._load_frame` (misc.py lines
243-253): invoke the loading collaborator on `index` (recorded in the
ghost `calls` log whether or not it raises); on success insert the frame
into the cache via `LRACache.__setitem__`; on failure the exception
propagates and the state is otherwise unchanged. -/
def load_frame (loadImg : Nat → Except PyErr α) (s : Store α) (index : Nat) :
    Except PyErr Unit × Store α :=
  match loadImg index with
  | .error e => (.error e, { s with calls := s.calls ++ [index] })
  | .ok img =>
      (.ok (), { s with
        calls := s.calls ++ [index],
        images := LRACache.setitem s.cache_size s.images index img })

/-- Embedding of `AsyncVideoFrameLoader.__getitem__` (misc.py lines
256-268): if `self.exception` is set, raise a `RuntimeError` from it;
otherwise set `self.last_accessed_frame = index`; then on a cache miss
call `_load_frame(index)` synchronously and return `self.images[index]`,
and on a cache hit read the entry, delete it, and return it.  The result
is the returned frame (or the raised exception) together with the state
of the object after the call. -/
def getitem (loadImg : Nat → Except PyErr α) (s : Store α) (index : Nat) :
    Except PyErr α × Store α :=
  match s.exception with
  | some e => (.error (.runtimeError e), s)
  | none =>
      let s₁ := { s with last_accessed_frame := index }
      if odMem s₁.images index then
        match odGet s₁.images index with
        | some res => (.ok res, { s₁ with images := odDel s₁.images index })
        | none => (.error .keyError, s₁)
      else
        match load_frame loadImg s₁ index with
        | (.error e, s₂) => (.error e, s₂)
        | (.ok _, s₂) =>
            match odGet s₂.images index with
            | some v => (.ok v, s₂)
            | none => (.error .keyError, s₂)

/-- Embedding of the part of `AsyncVideoFrameLoader.__init__` (misc.py
lines 196-211) that the claims are about: the fields are initialised
(empty cache, no exception, cursor at `start_frame`) and then
`self.__getitem__(start_frame)` is run synchronously, before the
`_load_frames` prefetch thread is started. -/
def init (loadImg : Nat → Except PyErr α) (cache_size start_frame : Nat) :
    Except PyErr α × Store α :=
  getitem loadImg
    { cache_size := cache_size
      images := []
      exception := none
      last_accessed_frame := start_frame
      calls := [] } start_frame

end Store

/-- Python `int(cache_size * 0.75)`: `0.75` is exact in binary floating
point and `cache_size * 0.75 = cache_size * 3 / 4` is computed exactly
for every realistic cache size, so truncation gives the floor of
`3 * cache_size / 4`. -/
def prefetchK (cache_size : Nat) : Nat := 3 * cache_size / 4

/-- Python `range(a, b)`. -/
def pyRange (a b : Nat) : List Nat := List.range' a (b - a)

/-- The frame indices for which one scheduling iteration of
`AsyncVideoFrameLoader._load_frames` (misc.py lines 222-229) submits
prefetch tasks: with `current_frame = self.last_accessed_frame` read at
the start of the iteration and `end_frame = min(current_frame + K,
len(self.img_paths))`, every `frame in range(current_frame, end_frame)`
with `frame not in self.images`. -/
def scheduledFrames (total : Nat) (s : Store α) : List Nat :=
  let current_frame := s.last_accessed_frame
  let end_frame := min (current_frame + prefetchK s.cache_size) total
  (pyRange current_frame end_frame).filter (fun frame => !odMem s.images frame)

/-- One scheduling iteration of `_load_frames`, acting on the task queue:
`self.task_queue.add_task((frame, self._load_frame))` appends each
scheduled frame to the queue (`queue.Queue` is FIFO, with no
deduplication). -/
def schedIter (total : Nat) (s : Store α) (tq : List Nat) : List Nat :=
  tq ++ scheduledFrames total s

/-- Whether a `TaskQueue` worker thread is still running its loop. -/
inductive WorkerStatus where
  | alive
  | dead
  deriving DecidableEq, Repr

/-- Embedding of one iteration of `TaskQueue._worker` (misc.py lines
170-177): dequeue a task with a timeout — an empty queue raises
`queue.Empty`, which is the only exception the `try/except` catches, and
the loop continues; otherwise run `func(frame)`, i.e. `_load_frame` on
the shared store.  If the load raises, nothing catches the exception: it
escapes the `while True` loop and the worker thread terminates, leaving
the store (in particular its `exception` slot) as the failed load left
it. -/
def workerStep (loadImg : Nat → Except PyErr α) (s : Store α) (tq : List Nat) :
    Store α × List Nat × WorkerStatus :=
  match tq with
  | [] => (s, [], .alive)
  | index :: rest =>
      match Store.load_frame loadImg s index with
      | (.ok _, s') => (s', rest, .alive)
      | (.error _, s') => (s', rest, .dead)

/-! ### Concrete scenarios used as witnesses and counterexamples -/

/-- A loading collaborator that always succeeds, returning the index
itself as the decoded frame. -/
def okLoad : Nat → Except PyErr Nat := fun i => .ok i

/-- A loading collaborator that fails exactly at index 50 (the spec's
sticky-failure scenario) and succeeds elsewhere. -/
def failAt50 : Nat → Except PyErr Nat := fun i =>
  if i = 50 then .error (.loadError 50) else .ok i

/-- A loading collaborator that always fails. -/
def failAlways : Nat → Except PyErr Nat := fun i => .error (.loadError i)

/-- A freshly initialised store: capacity 4 (so the prefetch window size
is `int(4 * 0.75) = 3`), empty cache, no recorded error, cursor at 0. -/
def store0 : Store Nat := ⟨4, [], none, 0, []⟩

/-- A store whose cache holds frame 3. -/
def storeHit : Store Nat := ⟨4, [(3, 30)], none, 0, []⟩

/-- A store with capacity 100 whose cache holds frame 7, about to be hit
by a background failure at index 50. -/
def storeW : Store Nat := ⟨100, [(7, 7)], none, 0, []⟩

/-- A store whose sticky exception slot has been set to the load failure
of frame 50, while frame 7 is still resident and would be servable. -/
def storePoisoned : Store Nat := ⟨100, [(7, 7)], some (.loadError 50), 0, []⟩

/-- A store with capacity 0. -/
def storeZ : Store Nat := ⟨0, [], none, 0, []⟩

/-- A store with capacity 100 whose cursor was just set to 1000
(the spec's window-bound scenario). -/
def storeCursor : Store Nat := ⟨100, [], none, 1000, []⟩

/-! ### Lemmas about the dict, the store and the scheduler -/

theorem odMem_iff (c : List (Nat × α)) (k : Nat) :
    odMem c k = true ↔ k ∈ c.map Prod.fst := by
  induction c with
  | nil => simp [odMem]
  | cons hd tl ih =>
    obtain ⟨k', v'⟩ := hd
    simp only [odMem, List.map_cons, List.mem_cons, Bool.or_eq_true, beq_iff_eq, ih]
    exact or_congr eq_comm Iff.rfl

theorem odMem_of_odGet {c : List (Nat × α)} {k : Nat} {v : α}
    (h : odGet c k = some v) : odMem c k = true := by
  induction c with
  | nil => simp [odGet] at h
  | cons hd tl ih =>
    obtain ⟨k', v'⟩ := hd
    by_cases hk : k' = k
    · simp [odMem, hk]
    · have hb : (k' == k) = false := beq_false_of_ne hk
      simp only [odGet, hb] at h
      simp [odMem, hb, ih h]

theorem odGet_head {c : List (Nat × α)} {k : Nat} {v : α}
    (h : odGet c k = some v) : odMem c k = true := odMem_of_odGet h

theorem odMem_odDel_self {c : List (Nat × α)} {k : Nat}
    (hnd : (c.map Prod.fst).Nodup) : odMem (odDel c k) k = false := by
  induction c with
  | nil => simp [odDel, odMem]
  | cons hd tl ih =>
    obtain ⟨k', v'⟩ := hd
    simp only [List.map_cons, List.nodup_cons] at hnd
    by_cases hk : k' = k
    · simp only [odDel, hk, if_pos (beq_self_eq_true k)]
      subst hk
      rw [← Bool.not_eq_true]
      intro hmem
      exact hnd.1 ((odMem_iff tl k').mp hmem)
    · have hb : (k' == k) = false := beq_false_of_ne hk
      simp [odDel, odMem, hb, ih hnd.2]

theorem odGet_append_new (c : List (Nat × α)) (k : Nat) (v : α)
    (h : odMem c k = false) : odGet (c ++ [(k, v)]) k = some v := by
  induction c with
  | nil => simp [odGet]
  | cons hd tl ih =>
    obtain ⟨k', v'⟩ := hd
    simp only [odMem, Bool.or_eq_false_iff] at h
    simp [odGet, h.1, ih h.2]

theorem odMem_drop_one (c : List (Nat × α)) (k : Nat)
    (h : odMem c k = false) : odMem (c.drop 1) k = false := by
  cases c with
  | nil => simp [odMem]
  | cons hd tl =>
    obtain ⟨k', v'⟩ := hd
    simp only [odMem, Bool.or_eq_false_iff] at h
    simpa using h.2

theorem odGet_setitem_new (m : Nat) (c : List (Nat × α)) (k : Nat) (v : α)
    (hnew : odMem c k = false) (hm : 1 ≤ m) :
    odGet (LRACache.setitem m c k v) k = some v := by
  unfold LRACache.setitem
  rw [odSet_of_not_mem c k v hnew]
  split
  · rename_i hlen
    cases c with
    | nil => simp at hlen; omega
    | cons hd tl =>
      obtain ⟨k', v'⟩ := hd
      simp only [odMem, Bool.or_eq_false_iff] at hnew
      simpa using odGet_append_new tl k v hnew.2
  · exact odGet_append_new c k v hnew

theorem odMem_setitem_new (m : Nat) (c : List (Nat × α)) (k : Nat) (v : α)
    (hnew : odMem c k = false) (hm : 1 ≤ m) :
    odMem (LRACache.setitem m c k v) k = true :=
  odMem_of_odGet (odGet_setitem_new m c k v hnew hm)

theorem load_frame_exception (loadImg : Nat → Except PyErr α) (s : Store α) (i : Nat) :
    (Store.load_frame loadImg s i).2.exception = s.exception := by
  unfold Store.load_frame
  cases loadImg i <;> rfl

theorem load_frame_last_accessed (loadImg : Nat → Except PyErr α) (s : Store α) (i : Nat) :
    (Store.load_frame loadImg s i).2.last_accessed_frame = s.last_accessed_frame := by
  unfold Store.load_frame
  cases loadImg i <;> rfl

theorem load_frame_calls (loadImg : Nat → Except PyErr α) (s : Store α) (i : Nat) :
    (Store.load_frame loadImg s i).2.calls = s.calls ++ [i] := by
  unfold Store.load_frame
  cases loadImg i <;> rfl

/-- Membership in the indices scheduled by one iteration of the
prefetch loop: exactly the window `[cur, min(cur + K, total))` minus the
indices already resident in the cache. -/
theorem mem_scheduledFrames (total : Nat) (s : Store α) (f : Nat) :
    f ∈ scheduledFrames total s ↔
      s.last_accessed_frame ≤ f ∧
        f < s.last_accessed_frame + prefetchK s.cache_size ∧
        f < total ∧ odMem s.images f = false := by
  unfold scheduledFrames pyRange
  simp only [List.mem_filter, List.mem_range'_1, Bool.not_eq_eq_eq_not, Bool.not_true]
  constructor
  · rintro ⟨⟨h1, h2⟩, h3⟩
    refine ⟨h1, ?_, ?_, h3⟩ <;> omega
  · rintro ⟨h1, h2, h3, h4⟩
    exact ⟨⟨h1, by omega⟩, h4⟩

/-! ### Claim theorems -/

/-- Claim C3: capacity invariant — for every cache constructed with a
fixed capacity and every finite sequence of insert operations, after each
insert completes (i.e. after every prefix of the sequence) the cache's
size is at most the capacity. -/
theorem c3_capacity_invariant (maxsize : Nat) (ops : List (Nat × α)) (j : Nat) :
    (LRACache.applyInserts maxsize (ops.take j)).length ≤ maxsize :=
  applyInserts_length_le maxsize (ops.take j)

/-- Claim C4: insertion-order eviction — when an insert makes the cache
exceed capacity, exactly the single oldest-inserted entry (the head of
the insertion order) is evicted and everything else is kept; in
particular with capacity 2, inserting keys 1, 2, 3 in order leaves key 1
absent and keys 2 and 3 present. -/
theorem c4_insertion_order_eviction :
    (∀ (m : Nat) (c : List (Nat × α)) (k : Nat) (v : α),
        0 < c.length → c.length = m → odMem c k = false →
        LRACache.setitem m c k v = c.drop 1 ++ [(k, v)]) ∧
    odMem (LRACache.applyInserts 2 [(1, (10 : Nat)), (2, 20), (3, 30)]) 1 = false ∧
    odMem (LRACache.applyInserts 2 [(1, (10 : Nat)), (2, 20), (3, 30)]) 2 = true ∧
    odMem (LRACache.applyInserts 2 [(1, (10 : Nat)), (2, 20), (3, 30)]) 3 = true :=
  ⟨setitem_evicts_oldest, by decide, by decide, by decide⟩

/-- Claim C4 witness: a full capacity-2 cache holding keys 1 and 2, upon
insertion of fresh key 3, evicts exactly key 1. -/
theorem c4_witness :
    LRACache.setitem 2 [(1, (10 : Nat)), (2, 20)] 3 30 = [(2, 20), (3, 30)] :=
  c4_insertion_order_eviction.1 2 [(1, 10), (2, 20)] 3 30 (by decide) rfl (by decide)

/-- Claim C10: with capacity at least 1, inserting a key not currently
present never evicts the key just inserted, so the miss path of
`__getitem__` — load, insert, read back `self.images[index]` — returns
the just-loaded frame; with capacity 0 the just-inserted key is
immediately evicted and the miss-path read-back raises a `KeyError`. -/
theorem c10_miss_path_readback :
    (∀ (m : Nat) (c : List (Nat × α)) (k : Nat) (v : α),
        odMem c k = false → 1 ≤ m →
        odMem (LRACache.setitem m c k v) k = true) ∧
    (∀ (loadImg : Nat → Except PyErr α) (s : Store α) (i : Nat) (v : α),
        s.exception = none → odMem s.images i = false → 1 ≤ s.cache_size →
        loadImg i = .ok v → (Store.getitem loadImg s i).1 = .ok v) ∧
    (∀ (loadImg : Nat → Except PyErr α) (s : Store α) (i : Nat) (v : α),
        s.exception = none → s.cache_size = 0 → s.images = [] →
        loadImg i = .ok v → (Store.getitem loadImg s i).1 = .error .keyError) := by
  refine ⟨odMem_setitem_new, ?_, ?_⟩
  · intro loadImg s i v hexc hmiss hcap hload
    have hget := odGet_setitem_new s.cache_size s.images i v hmiss hcap
    simp only [Store.getitem, hexc, hmiss, Bool.false_eq_true, if_false,
      Store.load_frame, hload, hget]
  · intro loadImg s i v hexc hzero himg hload
    simp only [Store.getitem, hexc, himg, hzero, Store.load_frame, hload,
      LRACache.setitem, odSet, odMem, odGet, Bool.false_eq_true, if_false,
      List.length_cons, List.length_nil, Nat.zero_lt_one, if_true, List.drop_one,
      List.tail_cons]

/-- Claim C10 witness: on a fresh capacity-4 store a miss at index 5
returns the loaded frame, while on a capacity-0 store the same miss
raises a `KeyError`; a fresh key inserted into a capacity-4 cache is
present afterwards. -/
theorem c10_witness :
    odMem (LRACache.setitem 4 ([] : List (Nat × Nat)) 5 55) 5 = true ∧
    (Store.getitem okLoad store0 5).1 = .ok 5 ∧
    (Store.getitem okLoad storeZ 5).1 = .error .keyError :=
  ⟨c10_miss_path_readback.1 4 [] 5 55 rfl (by decide),
   c10_miss_path_readback.2.1 okLoad store0 5 5 rfl rfl (by decide) rfl,
   c10_miss_path_readback.2.2 okLoad storeZ 5 5 rfl rfl rfl rfl⟩

/-- Helper: on a cache miss (no sticky exception, index not resident),
the state left by `__getitem__` is exactly the state left by the
synchronous `_load_frame` call, whatever its outcome. -/
theorem getitem_state_miss (loadImg : Nat → Except PyErr α) (s : Store α) (i : Nat)
    (hexc : s.exception = none) (hmiss : odMem s.images i = false) :
    (Store.getitem loadImg s i).2 =
      (Store.load_frame loadImg { s with last_accessed_frame := i } i).2 := by
  obtain ⟨cs, imgs, exc, last, cls⟩ := s
  simp only at hexc hmiss
  subst hexc
  simp only [Store.getitem, hmiss, Bool.false_eq_true, if_false]
  rcases hlf : Store.load_frame loadImg ⟨cs, imgs, none, i, cls⟩ i with ⟨r, s₂⟩
  cases r with
  | error e => rfl
  | ok u => rcases h2 : odGet s₂.images i with _ | w <;> simp [h2]

/-- Claim C2: single consumption on cache hit — for an index resident in
the cache, `__getitem__` returns the cached frame and removes the entry,
and an immediately following second `__getitem__` for the same index
finds it absent and re-invokes the synchronous loader (one new entry in
the ghost call log). -/
theorem c2_single_consumption (loadImg : Nat → Except PyErr α) (s : Store α) (i : Nat) (v : α)
    (hexc : s.exception = none) (hget : odGet s.images i = some v)
    (hnd : (s.images.map Prod.fst).Nodup) :
    (Store.getitem loadImg s i).1 = .ok v ∧
    odMem (Store.getitem loadImg s i).2.images i = false ∧
    (Store.getitem loadImg (Store.getitem loadImg s i).2 i).2.calls =
      (Store.getitem loadImg s i).2.calls ++ [i] := by
  have hmem : odMem s.images i = true := odMem_of_odGet hget
  have h1 : Store.getitem loadImg s i =
      (.ok v, { s with last_accessed_frame := i, images := odDel s.images i }) := by
    simp only [Store.getitem, hexc, hmem, if_true, hget]
  rw [h1]
  refine ⟨rfl, odMem_odDel_self hnd, ?_⟩
  dsimp only
  rw [getitem_state_miss loadImg ⟨s.cache_size, odDel s.images i, s.exception, i, s.calls⟩
      i hexc (odMem_odDel_self hnd), load_frame_calls]

/-- Claim C2 witness: on a store whose cache holds frame 3, getting index
3 returns the cached frame 30, leaves 3 absent, and a second get at 3
invokes the loader again. -/
theorem c2_witness :
    (Store.getitem okLoad storeHit 3).1 = .ok 30 ∧
    odMem (Store.getitem okLoad storeHit 3).2.images 3 = false ∧
    (Store.getitem okLoad (Store.getitem okLoad storeHit 3).2 3).2.calls =
      (Store.getitem okLoad storeHit 3).2.calls ++ [3] :=
  c2_single_consumption okLoad storeHit 3 30 rfl rfl (by decide)

/-- Claim C8: cursor update before servicing — whenever the sticky
exception is unset, `__getitem__` sets the prefetch cursor
`last_accessed_frame` to the requested index no matter how the read is
serviced (hit, miss, or failed synchronous load), so the next prefetch
window computed from the resulting state is anchored at that index. -/
theorem c8_cursor_update (loadImg : Nat → Except PyErr α) (s : Store α) (index : Nat)
    (hexc : s.exception = none) :
    (Store.getitem loadImg s index).2.last_accessed_frame = index ∧
    ∀ (total f : Nat),
      f ∈ scheduledFrames total (Store.getitem loadImg s index).2 → index ≤ f := by
  have hlast : (Store.getitem loadImg s index).2.last_accessed_frame = index := by
    by_cases hmem : odMem s.images index = true
    · rcases hgv : odGet s.images index with _ | v <;>
        simp only [Store.getitem, hexc, hmem, if_true, hgv]
    · rw [getitem_state_miss loadImg s index hexc (by simpa using hmem),
        load_frame_last_accessed]
  refine ⟨hlast, fun total f hf => ?_⟩
  have h := (mem_scheduledFrames total _ f).mp hf
  rw [hlast] at h
  exact h.1

/-- Claim C8 witness: on a fresh store, getting index 5 leaves the
prefetch cursor at 5. -/
theorem c8_witness : (Store.getitem okLoad store0 5).2.last_accessed_frame = 5 :=
  (c8_cursor_update okLoad store0 5 rfl).1

/-- Claim C9: eager start-frame load — `__init__` synchronously loads the
start frame into the cache (one loader invocation) before the prefetch
thread is started, so with `start_frame = 0` and capacity at least 1, a
`__getitem__(0)` immediately after construction is a cache hit that
performs no new decode: the ghost call log still shows exactly the single
invocation at index 0. -/
theorem c9_eager_start (loadImg : Nat → Except PyErr α) (cache_size : Nat) (v : α)
    (hload : loadImg 0 = .ok v) (hcap : 1 ≤ cache_size) :
    (Store.init loadImg cache_size 0).2.calls = [0] ∧
    odMem (Store.init loadImg cache_size 0).2.images 0 = true ∧
    (Store.getitem loadImg (Store.init loadImg cache_size 0).2 0).1 = .ok v ∧
    (Store.getitem loadImg (Store.init loadImg cache_size 0).2 0).2.calls = [0] := by
  have hlt : ¬ cache_size < 1 := by omega
  have hinit : Store.init loadImg cache_size 0 =
      (.ok v, ⟨cache_size, [(0, v)], none, 0, [0]⟩) := by
    simp only [Store.init, Store.getitem, Store.load_frame, hload, LRACache.setitem,
      odSet, odMem, odGet, List.length_cons, List.length_nil, List.nil_append,
      Bool.false_eq_true, if_false, hlt, beq_self_eq_true, if_true]
  rw [hinit]
  refine ⟨rfl, rfl, ?_, ?_⟩ <;>
    simp only [Store.getitem, odMem, odGet, odDel, beq_self_eq_true, Bool.true_or,
      if_true]

/-- Claim C9 witness: with the default capacity 200 and an always-ok
loader, construction loads frame 0 once and the first get of frame 0 hits
the cache without a second loader invocation. -/
theorem c9_witness :
    (Store.init okLoad 200 0).2.calls = [0] ∧
    odMem (Store.init okLoad 200 0).2.images 0 = true ∧
    (Store.getitem okLoad (Store.init okLoad 200 0).2 0).1 = .ok 0 ∧
    (Store.getitem okLoad (Store.init okLoad 200 0).2 0).2.calls = [0] :=
  c9_eager_start okLoad 200 0 rfl (by decide)

/-- Helper: when `_load_frame` fails, the cache is left untouched (the
insert at the end of `_load_frame` is never reached). -/
theorem load_frame_images_of_error (loadImg : Nat → Except PyErr α) (s : Store α)
    (i : Nat) (e : PyErr) (s' : Store α)
    (h : Store.load_frame loadImg s i = (.error e, s')) : s'.images = s.images := by
  unfold Store.load_frame at h
  cases hl : loadImg i with
  | ok v => rw [hl] at h; simp at h
  | error e' =>
      rw [hl] at h
      have h2 := congrArg Prod.snd h
      simp only at h2
      rw [← h2]

/-- Claim C1: the claimed sticky background failure does not happen in
the code — a load failure on the background worker path leaves the sticky
slot `exception = None` (the worker thread dies instead), and a
subsequent `__getitem__` for a servable index returns its frame normally
rather than raising a `BackgroundFailure`.  Concretely: the loader fails
at index 50 while executing the queued background task 50; afterwards the
recorded exception is still `none`, and getting the resident frame 7
succeeds. -/
theorem c1_background_failure_not_recorded :
    (workerStep failAt50 storeW [50]).2.2 = WorkerStatus.dead ∧
    (workerStep failAt50 storeW [50]).1.exception = none ∧
    (Store.getitem failAt50 (workerStep failAt50 storeW [50]).1 7).1 = .ok 7 :=
  ⟨rfl, rfl, rfl⟩

/-- Claim C5 counterexample: an exception raised by the task's load
function is not caught inside the worker loop — running the worker on
queue `[5, 6]` with an always-failing loader terminates the worker
(status `dead`) with task 6 still undequeued, refuting "the exception is
caught and the worker continues dequeuing subsequent tasks". -/
theorem c5_counterexample :
    (workerStep failAlways store0 [5, 6]).2.2 = WorkerStatus.dead ∧
    (workerStep failAlways store0 [5, 6]).2.1 = [6] :=
  ⟨rfl, rfl⟩

/-- Claim C5 as amended: the worker loop's `try/except` catches only the
`queue.Empty` timeout — on an empty queue the worker stays alive and
continues, and a task whose load succeeds leaves it alive; but an
exception raised by the load function escapes the loop and terminates the
worker, leaving the sticky error slot and the cache unchanged. -/
theorem c5_worker_uncaught_load_failure :
    (∀ (loadImg : Nat → Except PyErr α) (s : Store α),
        workerStep loadImg s [] = (s, [], .alive)) ∧
    (∀ (loadImg : Nat → Except PyErr α) (s : Store α) (i : Nat) (rest : List Nat)
        (s' : Store α),
        Store.load_frame loadImg s i = (.ok (), s') →
        workerStep loadImg s (i :: rest) = (s', rest, .alive)) ∧
    (∀ (loadImg : Nat → Except PyErr α) (s : Store α) (i : Nat) (rest : List Nat)
        (e : PyErr) (s' : Store α),
        Store.load_frame loadImg s i = (.error e, s') →
        workerStep loadImg s (i :: rest) = (s', rest, .dead) ∧
        s'.exception = s.exception ∧ s'.images = s.images) := by
  refine ⟨fun loadImg s => rfl, ?_, ?_⟩
  · intro loadImg s i rest s' hlf
    simp [workerStep, hlf]
  · intro loadImg s i rest e s' hlf
    refine ⟨by simp [workerStep, hlf], ?_, load_frame_images_of_error loadImg s i e s' hlf⟩
    have hx := load_frame_exception loadImg s i
    rw [hlf] at hx
    exact hx

/-- Claim C5 witness: a failing load of task 5 with task 6 still queued
terminates the worker, with the store's error slot and cache unchanged. -/
theorem c5_witness :
    workerStep failAlways storeHit [5, 6] =
      ((⟨4, [(3, 30)], none, 0, [5]⟩ : Store Nat), [6], .dead) ∧
    (⟨4, [(3, 30)], none, 0, [5]⟩ : Store Nat).exception = storeHit.exception ∧
    (⟨4, [(3, 30)], none, 0, [5]⟩ : Store Nat).images = storeHit.images :=
  c5_worker_uncaught_load_failure.2.2 failAlways storeHit 5 [6] (.loadError 5)
    ⟨4, [(3, 30)], none, 0, [5]⟩ rfl

/-- Claim C1 as amended: exceptions escaping a frame load on the
background worker path are not recorded — the worker terminates and the
sticky slot is unchanged (see the C5 theorems and the C1 theorem above).
The sticky slot is written only by the scheduling thread's own
`try/except`; once `exception` holds a cause `e`, every subsequent
`__getitem__`, for any index including otherwise-servable ones, raises a
`RuntimeError` wrapping `e` and leaves the state (hence the stickiness)
unchanged. -/
theorem c1_sticky_once_recorded :
    (∀ (loadImg : Nat → Except PyErr α) (s : Store α) (e : PyErr) (index : Nat),
        s.exception = some e →
        Store.getitem loadImg s index = (.error (.runtimeError e), s)) ∧
    (∀ (loadImg : Nat → Except PyErr α) (s : Store α) (tq : List Nat),
        (workerStep loadImg s tq).1.exception = s.exception) := by
  constructor
  · intro loadImg s e index h
    simp [Store.getitem, h]
  · intro loadImg s tq
    cases tq with
    | nil => rfl
    | cons i rest =>
        have hx := load_frame_exception loadImg s i
        rcases hlf : Store.load_frame loadImg s i with ⟨r, s'⟩
        rw [hlf] at hx
        cases r <;> simp only [workerStep, hlf] <;> exact hx

/-- Claim C1 witness: on a store whose sticky slot records the load
failure of frame 50, getting the still-resident (servable) frame 7
raises the wrapping `RuntimeError` instead of returning the frame. -/
theorem c1_witness :
    Store.getitem okLoad storePoisoned 7 =
      (.error (.runtimeError (.loadError 50)), storePoisoned) :=
  c1_sticky_once_recorded.1 okLoad storePoisoned (.loadError 50) 7 rfl

/-- Claim C6: window bound — every frame index scheduled by one
iteration of the prefetch loop lies in
`[cur, cur + K) ∩ [0, totalFrames)` where `cur` is the cursor value read
at the start of the iteration and `K = int(cacheCapacity * 0.75)`; in
particular no index at or beyond `cur + K` is queued by that cycle. -/
theorem c6_window_bound (total : Nat) (s : Store α) (f : Nat)
    (hf : f ∈ scheduledFrames total s) :
    s.last_accessed_frame ≤ f ∧
      f < s.last_accessed_frame + prefetchK s.cache_size ∧ f < total := by
  have h := (mem_scheduledFrames total s f).mp hf
  exact ⟨h.1, h.2.1, h.2.2.1⟩

/-- Claim C6 witness: with capacity 100 and the cursor at 1000, index
1005 is scheduled and the bounds give 1000 ≤ 1005 < 1075 (with 2000 total
frames). -/
theorem c6_witness :
    storeCursor.last_accessed_frame ≤ 1005 ∧
      1005 < storeCursor.last_accessed_frame + prefetchK storeCursor.cache_size ∧
      1005 < 2000 :=
  c6_window_bound 2000 storeCursor 1005 (by decide)

/-- Claim C7 counterexample: a prefetch task can be enqueued for an index
that is already queued.  With capacity 4 (window size 3) and 10 frames:
the first scheduling iteration enqueues tasks 0, 1, 2; no worker runs;
the consumer gets frame 1 (advancing the cursor); the next scheduling
iteration enqueues index 2 again — the queue then holds two tasks for
index 2. -/
theorem c7_counterexample :
    schedIter 10 store0 [] = [0, 1, 2] ∧
    (schedIter 10 store0 []).count 2 = 1 ∧
    schedIter 10 (Store.getitem okLoad store0 1).2 (schedIter 10 store0 []) =
      [0, 1, 2, 2, 3] ∧
    (schedIter 10 (Store.getitem okLoad store0 1).2 (schedIter 10 store0 [])).count 2
      = 2 := by
  refine ⟨rfl, rfl, rfl, rfl⟩

/-- Claim C7 as amended: a scheduling iteration deduplicates only against
the cache — a task is enqueued for index `f` exactly when `f` lies in the
window `[cur, min(cur + K, total))` and `f` is not resident in the cache;
indices already queued or in-flight are not tracked, so such an index can
be enqueued again (see the counterexample). -/
theorem c7_scheduler_skips_only_cached (total : Nat) (s : Store α) (f : Nat) :
    f ∈ scheduledFrames total s ↔
      s.last_accessed_frame ≤ f ∧
        f < min (s.last_accessed_frame + prefetchK s.cache_size) total ∧
        odMem s.images f = false := by
  rw [mem_scheduledFrames]
  constructor
  · rintro ⟨h1, h2, h3, h4⟩
    exact ⟨h1, by omega, h4⟩
  · rintro ⟨h1, h2, h3⟩
    refine ⟨h1, by omega, by omega, h3⟩

end Sam2
